import Mathlib

/-
  Shallow embedding of the A2A protocol core of the repository
  (src/utils/protocols.py and the data model in src/utils/models.py):
  the task manager, the skill router, the outbound protocol client and
  the MCP tool-connection manager, together with proofs about them.

  Modelling conventions:
  * Python dicts keyed by strings become association lists; dict values
    typed `Any` in the source are modelled as `String` where only their
    identity matters.
  * `asyncio.Lock` tables are modelled by the set (list) of keys for which
    a lock object has been created; lock acquisition itself is a no-op in
    this sequential model (each handler runs to completion between lock
    operations, matching one interleaving of the event loop).
  * `datetime.now()` is modelled by an explicit `now : Nat` argument;
    `str(uuid.uuid4())` by an explicit `genSession : String` argument.
  * Raising an exception is modelled by returning `Except`/an error field.
  * Python object reprs interpolated into log/DLQ strings are abstracted
    by `msgRepr`; the exact repr text is not load-bearing.
  * IMPORTANT scheduling fact of the source: `A2ATaskManager._update_task_state`
    is an `async def`, and every call site in protocols.py invokes it
    WITHOUT `await` (lines 857, 875, 885, 912, 949, 979).  Calling a
    coroutine function only builds a coroutine object; since the object is
    discarded, the body never executes.  The embedding therefore omits the
    store mutation at those call sites, and `updateTaskState` below records
    what the body would have done.
-/

namespace APIA

/-! ## Data model (src/utils/models.py) -/

/-- `A2APart = Union[A2ATextPart, A2AFilePart, A2ADataPart]`.  A file part
carries optional base64 bytes, an optional URI and an optional MIME type;
a data part carries a string-keyed map. -/
inductive A2APart where
  | text (t : String)
  | file (bytes : Option String) (uri : Option String) (mimeType : Option String)
  | data (d : List (String × String))
  deriving DecidableEq, Repr

/-- `A2AMessage`: role, parts, optional string-keyed metadata. -/
structure A2AMessage where
  role : String
  parts : List A2APart
  metadata : Option (List (String × String))
  deriving DecidableEq, Repr

/-- `A2AArtifact`. -/
structure A2AArtifact where
  name : Option String
  description : Option String
  parts : List A2APart
  index : Nat
  append : Option Bool
  lastChunk : Option Bool
  deriving DecidableEq, Repr

/-- `A2ATaskState`: state string, optional message, timestamp. -/
structure A2ATaskState where
  state : String
  message : Option A2AMessage
  timestamp : Nat
  deriving DecidableEq, Repr

/-- `A2ATask`. -/
structure A2ATask where
  id : String
  sessionId : Option String
  status : A2ATaskState
  history : List A2AMessage
  artifacts : List A2AArtifact
  metadata : Option (List (String × String))
  deriving DecidableEq, Repr

/-- `A2ATaskSendParams` (the fields the embedded operations read;
`acceptedOutputModes` and `historyLength` are never consulted by
`handle_task_send`/`handle_task_send_subscribe`). -/
structure A2ATaskSendParams where
  id : String
  sessionId : Option String
  message : A2AMessage
  metadata : Option (List (String × String))
  deriving DecidableEq, Repr

/-- Errors raised by the embedded code: `A2AError(message, code)`,
`ConnectionError`, `ActionFailedError`, `ConfigurationError`,
`APIAException`, plus a marker for a Python `KeyError`. -/
inductive A2AErr where
  | a2a (message : String) (code : Int)
  | connection (message : String)
  | actionFailed (message : String)
  | configuration (message : String)
  | apia (message : String)
  | keyError (key : String)
  deriving DecidableEq, Repr

/-! ## Generic helpers -/

/-- Association-list lookup, modelling `d.get(k)` / `d[k]`. -/
def lookupA {κ α : Type} [DecidableEq κ] : List (κ × α) → κ → Option α
  | [], _ => none
  | (k, v) :: rest, k' => if k = k' then some v else lookupA rest k'

/-- Association-list insert/overwrite, modelling `d[k] = v`. -/
def insertA {κ α : Type} [DecidableEq κ] : List (κ × α) → κ → α → List (κ × α)
  | [], k, v => [(k, v)]
  | (k0, v0) :: rest, k, v =>
      if k0 = k then (k, v) :: rest else (k0, v0) :: insertA rest k v

/-- Association-list removal, modelling `del d[k]` (no-op when absent). -/
def removeA {κ α : Type} [DecidableEq κ] (l : List (κ × α)) (k : κ) : List (κ × α) :=
  l.filter (fun p => p.1 ≠ k)

/-- Python truthiness of an `Optional[str]`: `None` and `""` are falsy. -/
def pyTruthyOptStr : Option String → Bool
  | none => false
  | some s => s ≠ ""

/-- `a or b` on an `Optional[str]` with a default (used for
`params.sessionId or str(uuid.uuid4())`). -/
def pyOrStr : Option String → String → String
  | some s, d => if s = "" then d else s
  | none, d => d

/-- Python f-string rendering of an `Optional[str]` (`None` prints as
`"None"`). -/
def optRepr : Option String → String
  | none => "None"
  | some s => s

/-- Abstraction of the Python repr of an `Optional[A2AMessage]` interpolated
into DLQ reason strings. -/
def msgRepr : Option A2AMessage → String
  | none => "None"
  | some _ => "A2AMessage"

/-- Python slice `l[-n:]` for an integer `n ≥ 0` (and `l[(-n):]` for `n < 0`,
i.e. `l[|n|:]`).  Note `(-0) = 0`, so `l[-0:]` is the whole list. -/
def pySliceLast {α : Type} (n : Int) (l : List α) : List α :=
  if n ≤ 0 then l.drop (Int.toNat (-n)) else l.drop (l.length - n.toNat)

/-! ## Skill router (`A2ATaskRouter`, protocols.py lines 543-580) -/

/-- A streaming emission performed by a handler through its context:
`context.update_status(state, message_text, final)` or
`context.yield_artifact(artifact)`. -/
inductive HandlerEmit where
  | status (state : String) (messageText : Option String) (final : Bool)
  | artifact (a : A2AArtifact)

/-- `A2ATaskResult(status, message, artifacts)`: the constructor builds
`final_status = A2ATaskState(state=status, message=message)`. -/
structure A2ATaskResult where
  finalStatus : A2ATaskState
  artifacts : List A2AArtifact

/-- One run of a handler on a task snapshot: the context emissions it
performed, and either a returned `A2ATaskResult` or a raised exception
(represented by its text). -/
structure HandlerRun where
  emits : List HandlerEmit
  outcome : Except String A2ATaskResult

/-- A registered handler value: `asyncio.iscoroutinefunction(handler)`
is a property of the callable, checked at registration time. -/
structure A2AHandler where
  isCoroutineFunction : Bool
  run : A2ATask → HandlerRun

/-- Router state: `_handlers` and `_default_handler`. -/
structure A2ATaskRouter where
  handlers : List (String × A2AHandler)
  defaultHandler : Option A2AHandler

/-- `A2ATaskRouter.register_handler`: a non-coroutine callable is logged and
NOT registered; otherwise the entry is inserted, silently overwriting. -/
def registerHandler (r : A2ATaskRouter) (skillId : String) (h : A2AHandler) : A2ATaskRouter :=
  if h.isCoroutineFunction then { r with handlers := insertA r.handlers skillId h } else r

/-- `A2ATaskRouter.get_handler`: `if skill_id and skill_id in self._handlers`
(note Python truthiness: the empty string never matches), else the default
handler if set, else `None`. -/
def getHandler (r : A2ATaskRouter) (skillId : Option String) : Option A2AHandler :=
  match skillId with
  | some s =>
      match (if s = "" then none else lookupA r.handlers s) with
      | some h => some h
      | none => r.defaultHandler
  | none => r.defaultHandler

/-! ## Parameter validation (`_validate_task_params`, lines 796-837) -/

/-- Validation of a single message part, in source order: file parts must
have truthy bytes or a truthy URI, a truthy URI must start with http(s);
text parts must be non-empty; data parts must be non-empty. -/
def validatePart : A2APart → Option A2AErr
  | .file b u _ =>
      if ¬ pyTruthyOptStr b ∧ ¬ pyTruthyOptStr u then
        some (.a2a "File part must have either bytes or URI" (-32602))
      else if pyTruthyOptStr u ∧
              ¬ ((optRepr u).startsWith "http://" ∨ (optRepr u).startsWith "https://") then
        some (.a2a "Invalid URI format: must start with http:// or https://" (-32602))
      else none
  | .text t =>
      if t = "" then some (.a2a "Text part must contain non-empty text" (-32602)) else none
  | .data d =>
      if d = [] then some (.a2a "Data part must contain non-empty dictionary" (-32602)) else none

/-- First validation error among the message parts, in order. -/
def firstValidationError : List A2APart → Option A2AErr
  | [] => none
  | p :: rest =>
      match validatePart p with
      | some e => some e
      | none => firstValidationError rest

/-- `A2ATaskManager._validate_task_params`: at least one part, then each
part validated in order.  (The missing-skill_id case only logs a warning.) -/
def validateTaskParams (params : A2ATaskSendParams) : Option A2AErr :=
  if params.message.parts = [] then
    some (.a2a "Task message must contain at least one part" (-32602))
  else firstValidationError params.message.parts

/-! ## Task manager state (`A2ATaskManager`, protocols.py lines 728-989) -/

/-- Task manager state: `_tasks`, `_task_locks` (modelled by the set of ids
for which a lock object exists), `a2a_dlq`, and the knowledge-base metrics
under category `"a2a_tasks"` (`kb.update_metric` / `kb.get_metric`). -/
structure A2ATaskManager where
  tasks : List (String × A2ATask)
  taskLocks : List String
  dlq : List (String × String × String)
  metrics : List (String × Nat)
  deriving Repr

/-- The empty manager, as built by `A2ATaskManager.__init__`. -/
def emptyManager : A2ATaskManager :=
  { tasks := [], taskLocks := [], dlq := [], metrics := [] }

/-- `_get_task_lock`: lazily creates the per-task lock entry under the
global lock; the entry persists for the lifetime of the manager. -/
def getTaskLock (m : A2ATaskManager) (taskId : String) : A2ATaskManager :=
  if taskId ∈ m.taskLocks then m
  else { m with taskLocks := m.taskLocks ++ [taskId] }

/-- `kb.get_metric("a2a_tasks", name, 0)`. -/
def getMetric (m : A2ATaskManager) (name : String) : Nat :=
  (lookupA m.metrics name).getD 0

/-- `kb.update_metric("a2a_tasks", name, get_metric(...) + 1)`. -/
def bumpMetric (m : A2ATaskManager) (name : String) : A2ATaskManager :=
  { m with metrics := insertA m.metrics name (getMetric m name + 1) }

/-- What the body of `A2ATaskManager._update_task_state` does when it runs:
set status (refreshing the timestamp), append to history, and replace or
clear artifacts.  NOTE: in the source this is an `async def` and every call
site invokes it without `await`, so this body is in fact never executed;
it is embedded here as the reference point for the divergences proved
below. -/
def updateTaskState (m : A2ATaskManager) (now : Nat) (taskId : String)
    (status : Option A2ATaskState) (historyAppend : Option A2AMessage)
    (artifacts : Option (List A2AArtifact)) (replaceArtifacts : Bool) : A2ATaskManager :=
  match lookupA m.tasks taskId with
  | none => m
  | some task =>
      let task1 := match status with
        | some st => { task with status := { st with timestamp := now } }
        | none => task
      let task2 := match historyAppend with
        | some msg => { task1 with history := task1.history ++ [msg] }
        | none => task1
      let task3 :=
        if artifacts.isSome ∨ replaceArtifacts then
          { task2 with artifacts := artifacts.getD [] }
        else task2
      { m with tasks := insertA m.tasks taskId task3 }

/-- The skill id read by `_get_handler_for_task`:
`params.message.metadata.get("skill_id") if ... params.message.metadata
else None` (an empty metadata dict is falsy). -/
def taskSkillId (params : A2ATaskSendParams) : Option String :=
  match params.message.metadata with
  | some md => if md = [] then none else lookupA md "skill_id"
  | none => none

/-- States in which an existing task may receive another message
(protocols.py lines 850 and 906). -/
def reusableStates : List String :=
  ["input-required", "completed", "working", "submitted", "canceled"]

/-- Membership test for `reusableStates`. -/
def reusableStateB (s : String) : Bool := reusableStates.contains s

/-- Terminal states checked by `handle_task_cancel` (line 972). -/
def terminalStates : List String := ["completed", "failed", "canceled"]

/-- `A2ATaskState(state="working")` with the current time. -/
def workingState (now : Nat) : A2ATaskState :=
  { state := "working", message := none, timestamp := now }

/-- The new task record built on first send for an id (lines 859-863). -/
def newTask (taskId sessionId : String) (params : A2ATaskSendParams) (now : Nat) : A2ATask :=
  { id := taskId, sessionId := some sessionId, status := workingState now,
    history := [params.message], artifacts := [], metadata := params.metadata }

/-- The `A2ATaskState(state="failed", message=...)` built when a handler
raises an exception with text `e` (lines 882-883 and 937-938). -/
def failedState (now : Nat) (e : String) : A2ATaskState :=
  { state := "failed",
    message := some { role := "agent", parts := [A2APart.text ("Internal error: " ++ e)],
                      metadata := none },
    timestamp := now }

/-- Handler execution tail of `handle_task_send` (lines 869-891): the handler
runs outside the per-task lock on a deep copy; its context has no update
queue so any streaming emissions are dropped with a warning.  The
`_update_task_state` commits at lines 875 and 885 are not awaited, so the
store is NOT modified here; only the metrics and the DLQ (lines 876-879,
886-887, both awaited) change.  Finally the stored record is re-read and a
deep copy returned (line 891). -/
def sendExec (m : A2ATaskManager) (taskId : String) (handler : A2AHandler)
    (taskCopy : A2ATask) : A2ATaskManager × Except A2AErr A2ATask :=
  let rr := handler.run taskCopy
  let m1 :=
    match rr.outcome with
    | .ok result =>
        if result.finalStatus.state = "completed" then bumpMetric m "completed"
        else if result.finalStatus.state = "failed" then
          let mm := bumpMetric m "failed"
          { mm with dlq := mm.dlq ++
              [(taskId, "tasks/send", "Handler failed: " ++ msgRepr result.finalStatus.message)] }
        else m
    | .error e =>
        let mm := bumpMetric m "failed"
        { mm with dlq := mm.dlq ++ [(taskId, "tasks/send", "Handler exception: " ++ e)] }
  match lookupA m1.tasks taskId with
  | some t => (m1, .ok t)
  | none => (m1, .error (.keyError taskId))

/-- `A2ATaskManager.handle_task_send` (lines 839-891).  Validation first
(invalid parameters raise before any state is touched); then handler
resolution via the router (`_get_handler_for_task`, which appends to the
DLQ and raises -32601 when no handler matches); then, under the lazily
created per-task lock, the record is created or transitioned to working;
then `sendExec`. -/
def handleTaskSend (m : A2ATaskManager) (router : A2ATaskRouter)
    (params : A2ATaskSendParams) (genSession : String) (now : Nat) :
    A2ATaskManager × Except A2AErr A2ATask :=
  match validateTaskParams params with
  | some e => (m, .error e)
  | none =>
    let taskId := params.id
    let sessionId := pyOrStr params.sessionId genSession
    match getHandler router (taskSkillId params) with
    | none =>
        ({ m with dlq := m.dlq ++ [(taskId, "tasks/send",
             "No suitable handler found (Skill ID: " ++ optRepr (taskSkillId params) ++ ")")] },
         .error (.a2a ("No suitable agent handler found for skill " ++ optRepr (taskSkillId params))
                 (-32601)))
    | some handler =>
      let m1 := getTaskLock m taskId
      match lookupA m1.tasks taskId with
      | some task =>
          if reusableStateB task.status.state then
            let task1 := { task with
              history := task.history ++ [params.message]
              sessionId := some sessionId
              status := workingState now }
            sendExec { m1 with tasks := insertA m1.tasks taskId task1 } taskId handler task1
          else
            (m1, .error (.a2a ("Task " ++ taskId ++ " in invalid state " ++ task.status.state)
                         (-32004)))
      | none =>
          let task1 := newTask taskId sessionId params now
          sendExec (bumpMetric { m1 with tasks := insertA m1.tasks taskId task1 } "received")
            taskId handler task1

/-- `A2ATaskManager.handle_task_get` (lines 955-965): lazily creates the
per-task lock, then deep-copies the record; the history is sliced with
`history[-history_length:]` whenever `history_length >= 0` and the history
is non-empty (so the `elif history_length == 0` branch is dead in that
case); unknown ids raise -32001. -/
def handleTaskGet (m : A2ATaskManager) (taskId : String) (historyLength : Int) :
    A2ATaskManager × Except A2AErr A2ATask :=
  let m1 := getTaskLock m taskId
  match lookupA m1.tasks taskId with
  | none => (m1, .error (.a2a ("Task " ++ taskId ++ " not found") (-32001)))
  | some task =>
      let history1 :=
        if historyLength ≥ 0 ∧ task.history ≠ [] then pySliceLast historyLength task.history
        else if historyLength = 0 then ([] : List A2AMessage)
        else task.history
      (m1, .ok { task with history := history1 })

/-- `A2ATaskManager.handle_task_cancel` (lines 967-983): lazily creates the
per-task lock; unknown ids raise -32001; terminal tasks are only logged;
otherwise a canceled status is constructed and passed to
`_update_task_state` WITHOUT `await` (line 979), so the store is not
modified, and only the `canceled` metric is bumped (line 981, awaited).
Either way the current stored record is re-read and a deep copy returned. -/
def handleTaskCancel (m : A2ATaskManager) (taskId : String) (now : Nat) :
    A2ATaskManager × Except A2AErr A2ATask :=
  let m1 := getTaskLock m taskId
  match lookupA m1.tasks taskId with
  | none => (m1, .error (.a2a ("Task " ++ taskId ++ " not found") (-32001)))
  | some task =>
      if terminalStates.contains task.status.state then (m1, .ok task)
      else
        let _canceledStatus : A2ATaskState := { state := "canceled", message := none, timestamp := now }
        (bumpMetric m1 "canceled", .ok task)

/-! ## Streaming (`handle_task_send_subscribe`, lines 893-952, and
`A2ATaskContext.update_status` / `yield_artifact`, lines 701-719) -/

/-- An item put on the per-task `asyncio.Queue`: a
`A2ATaskStatusUpdateEventResult`, a `A2ATaskArtifactUpdateEventResult`,
or a raw `A2AError` object (line 907). -/
inductive QueueItem where
  | statusEvent (id : String) (status : A2ATaskState) (final : Bool)
  | artifactEvent (id : String) (a : A2AArtifact)
  | errorItem (message : String) (code : Int)
  deriving DecidableEq, Repr

/-- `A2ATaskContext.update_status`: wraps a truthy message text into an
agent message and puts a status event with the given `final` flag. -/
def updateStatusEvent (taskId : String) (now : Nat) (state : String)
    (messageText : Option String) (final : Bool) : QueueItem :=
  let statusMessage : Option A2AMessage :=
    match messageText with
    | some t =>
        if t = "" then none
        else some { role := "agent", parts := [A2APart.text t], metadata := none }
    | none => none
  QueueItem.statusEvent taskId { state := state, message := statusMessage, timestamp := now } final

/-- Whether a queue item is a status event with `final == true`. -/
def isFinalEvent : QueueItem → Bool
  | .statusEvent _ _ f => f
  | _ => false

/-- Translation of a handler emission into the queue item the context puts
(the streaming context is bound to the queue, so nothing is dropped). -/
def emitToItem (taskId : String) (now : Nat) : HandlerEmit → QueueItem
  | .status st txt f => updateStatusEvent taskId now st txt f
  | .artifact a => QueueItem.artifactEvent taskId a

/-- Whether a handler emission carries `final=True`. -/
def emitFinal : HandlerEmit → Bool
  | .status _ _ f => f
  | .artifact _ => false

/-- Evaluation of `final_status.message.parts[0].text if final_status.message
else None` (line 934): raises `IndexError` on an empty part list and
`AttributeError` on a non-text first part (exception text abstracted). -/
def finalMessageText : Option A2AMessage → Except String (Option String)
  | none => .ok none
  | some msg =>
      match msg.parts with
      | [] => .error "list index out of range"
      | p :: _ =>
          match p with
          | .text t => .ok (some t)
          | .file _ _ _ => .error "A2AFilePart object has no attribute text"
          | .data _ => .error "A2ADataPart object has no attribute text"

/-- Result of one `handle_task_send_subscribe` call: the manager state, the
sequence of items put on the update queue, and the exception the call
itself raised, if any. -/
structure SubscribeRun where
  mgr : A2ATaskManager
  queue : List QueueItem
  raised : Option A2AErr

/-- The `finally` block of `handle_task_send_subscribe` (lines 945-952):
the `_update_task_state` commit at line 949 is not awaited, so the store is
unchanged; any non-completed final status counts as `failed` and is also
sent to the DLQ; the corresponding metric is bumped. -/
def subscribeFinally (m : A2ATaskManager) (taskId : String)
    (finalStatus : A2ATaskState) : A2ATaskManager :=
  let category := if finalStatus.state = "completed" then "completed" else "failed"
  let m1 :=
    if category = "failed" then
      { m with dlq := m.dlq ++
          [(taskId, "tasks/sendSubscribe", "Stream handler failed: " ++ msgRepr finalStatus.message)] }
    else m
  bumpMetric m1 category

/-- Handler execution tail of `handle_task_send_subscribe` (lines 923-952):
an initial working status event; the handler runs with a queue-bound
context; on normal return the final status event is pushed (building its
message text may itself raise, diverting into the except branch); on an
exception a failed final event is pushed and a DLQ entry appended (line
944); then the `finally` block runs. -/
def subscribeExec (m : A2ATaskManager) (taskId : String) (handler : A2AHandler)
    (taskCopy : A2ATask) (now : Nat) : SubscribeRun :=
  let initialEvent := updateStatusEvent taskId now "working"
    (some "Task submitted for processing...") false
  let rr := handler.run taskCopy
  let handlerItems := rr.emits.map (emitToItem taskId now)
  match rr.outcome with
  | .ok result =>
      match finalMessageText result.finalStatus.message with
      | .ok txt =>
          let finalEvent := updateStatusEvent taskId now result.finalStatus.state txt true
          ⟨subscribeFinally m taskId result.finalStatus,
           initialEvent :: handlerItems ++ [finalEvent], none⟩
      | .error e =>
          let finalEvent := updateStatusEvent taskId now "failed" (some ("Internal error: " ++ e)) true
          let m1 := { m with dlq := m.dlq ++
              [(taskId, "tasks/sendSubscribe", "Handler exception: " ++ e)] }
          ⟨subscribeFinally m1 taskId (failedState now e),
           initialEvent :: handlerItems ++ [finalEvent], none⟩
  | .error e =>
      let finalEvent := updateStatusEvent taskId now "failed" (some ("Internal error: " ++ e)) true
      let m1 := { m with dlq := m.dlq ++
          [(taskId, "tasks/sendSubscribe", "Handler exception: " ++ e)] }
      ⟨subscribeFinally m1 taskId (failedState now e),
       initialEvent :: handlerItems ++ [finalEvent], none⟩

/-- `A2ATaskManager.handle_task_send_subscribe` (lines 893-952): validation,
handler resolution (`_get_handler_for_task` appends to the DLQ with method
string `"tasks/send"`, line 791, and raises -32601), then under the
per-task lock either the invalid-state rejection (a raw `A2AError` is put
on the queue and the call returns, lines 906-908) or the create/transition
step, then `subscribeExec`. -/
def handleTaskSendSubscribe (m : A2ATaskManager) (router : A2ATaskRouter)
    (params : A2ATaskSendParams) (genSession : String) (now : Nat) : SubscribeRun :=
  match validateTaskParams params with
  | some e => ⟨m, [], some e⟩
  | none =>
    let taskId := params.id
    let sessionId := pyOrStr params.sessionId genSession
    match getHandler router (taskSkillId params) with
    | none =>
        ⟨{ m with dlq := m.dlq ++ [(taskId, "tasks/send",
             "No suitable handler found (Skill ID: " ++ optRepr (taskSkillId params) ++ ")")] },
         [],
         some (.a2a ("No suitable agent handler found for skill " ++ optRepr (taskSkillId params))
               (-32601))⟩
    | some handler =>
      let m1 := getTaskLock m taskId
      match lookupA m1.tasks taskId with
      | some task =>
          if reusableStateB task.status.state then
            let task1 := { task with
              history := task.history ++ [params.message]
              sessionId := some sessionId
              status := workingState now }
            subscribeExec { m1 with tasks := insertA m1.tasks taskId task1 } taskId handler task1 now
          else
            ⟨m1, [QueueItem.errorItem ("Task in invalid state " ++ task.status.state) (-32004)],
             none⟩
      | none =>
          let task1 := newTask taskId sessionId params now
          subscribeExec (bumpMetric { m1 with tasks := insertA m1.tasks taskId task1 } "received")
            taskId handler task1 now

/-! ## Outbound client streaming tail (`A2AClientManager.send_task`,
protocols.py lines 444-518, and `get_task`, lines 520-526)

The SSE wire parsing (lines 454-459: `data:` prefix, JSON decoding) is
abstracted into a list of already-classified events; a JSON decode failure
or an unparseable result structure is the `malformed` case, which the loop
logs and skips. -/

/-- One parsed SSE event as classified by the loop body (lines 461-489). -/
inductive StreamEvent where
  | errorEvt (code : Int) (message : String)
  | statusEvt (status : A2ATaskState) (final : Bool)
  | artifactEvt (a : A2AArtifact)
  | malformed (line : String)
  deriving DecidableEq, Repr

/-- Loop state after consuming the stream: `last_known_task_state` and
`stream_exc`. -/
structure StreamLoopState where
  lastKnown : Option A2ATaskState
  streamExc : Option A2AErr
  deriving DecidableEq, Repr

/-- The `async for` loop of lines 454-495: an error event records the
exception and breaks; a status event always updates
`last_known_task_state` (line 477) and breaks when `final` (line 487-489);
artifact events and malformed lines continue. -/
def processStream : List StreamEvent → Option A2ATaskState → StreamLoopState
  | [], lk => ⟨lk, none⟩
  | e :: rest, lk =>
      match e with
      | .errorEvt c msg => ⟨lk, some (.a2a msg c)⟩
      | .statusEvt st f => if f then ⟨some st, none⟩ else processStream rest (some st)
      | .artifactEvt _ => processStream rest lk
      | .malformed _ => processStream rest lk

/-- Outcome of the streaming branch of `send_task`: whether a `tasks/get`
fallback request was issued, and the value returned or exception raised. -/
structure ClientStreamResult where
  calledGet : Bool
  result : Except A2AErr A2ATask
  deriving Repr

/-- The post-stream classification of `send_task` (lines 504-518): a stream
error raises; otherwise, if ANY status event was seen (final or not), a
task carrying the last known state is synthesized and returned (line 510,
with the pydantic defaults for the unset fields); only when no status event
was seen at all does the client fall back to `get_task` (line 515) and
return its result (a failing fallback raises `APIAException`, line 518). -/
def sendTaskStreamFinish (params : A2ATaskSendParams) (events : List StreamEvent)
    (getResult : Except A2AErr A2ATask) : ClientStreamResult :=
  let o := processStream events none
  match o.streamExc with
  | some _ => ⟨false, .error (.apia "A2A stream ended with error")⟩
  | none =>
      match o.lastKnown with
      | some st =>
          ⟨false, .ok { id := params.id, sessionId := params.sessionId, status := st,
                        history := [], artifacts := [], metadata := none }⟩
      | none =>
          match getResult with
          | .ok t => ⟨true, .ok t⟩
          | .error _ => ⟨true, .error (.apia ("Stream incomplete and failed to fetch final status for task " ++ params.id))⟩

/-! ## MCP tool-connection manager (`MCPClientManager`, lines 93-260) -/

/-- One entry of the manager configuration (`MCPServerConfig`): only the
name and connection type are consulted by the control flow embedded here. -/
structure MCPServerConfig where
  name : String
  connectionType : String
  deriving DecidableEq, Repr

/-- Opaque handles for an established `ClientSession` and its connection
context. -/
abbrev MCPSession := Nat

/-- Opaque connection-context handle. -/
abbrev MCPContext := Nat

/-- Manager state: `config`, `_sessions`, `_contexts`, `_locks` (set of
server names with a lock object) and `_connection_tasks` (set of server
names with a registered in-flight task). -/
structure MCPClientManager where
  config : List MCPServerConfig
  sessions : List (String × MCPSession)
  contexts : List (String × MCPContext)
  locks : List String
  connectionTasks : List String
  deriving DecidableEq, Repr

/-- Environment oracle for the transport: establishing a stdio/tcp
connection for a configured server either yields a session and context or
fails with an exception text. -/
def ConnectEnv : Type := MCPServerConfig → Except String (MCPSession × MCPContext)

/-- Environment oracle for `session.call_tool`: the extracted content or an
exception text. -/
def ToolEnv : Type := MCPSession → String → List (String × String) → Except String String

/-- `MCPClientManager._connect` (lines 102-185): ensure the per-server lock
exists, return any cached session, look up the configuration (missing ⇒
`ConfigurationError`), attempt the transport connection for a supported
connection type, and on success register session and context and drop the
connection-task entry.  Any exception lands in the handler of lines
173-185, which drops the connection-task entry, deletes any
partially-registered session and context, and raises `ConnectionError`. -/
def mcpConnect (env : ConnectEnv) (m : MCPClientManager) (serverName : String) :
    MCPClientManager × Except A2AErr MCPSession :=
  let m1 := if serverName ∈ m.locks then m else { m with locks := m.locks ++ [serverName] }
  match lookupA m1.sessions serverName with
  | some s => (m1, .ok s)
  | none =>
      let attempt : Except String (MCPSession × MCPContext) :=
        match m1.config.find? (fun c => c.name = serverName) with
        | none => .error ("MCP server config not found: " ++ serverName)
        | some conf =>
            if conf.connectionType = "stdio" ∨ conf.connectionType = "tcp" then env conf
            else .error ("Unsupported MCP connection type: " ++ conf.connectionType)
      match attempt with
      | .ok (s, c) =>
          ({ m1 with
              sessions := insertA m1.sessions serverName s
              contexts := insertA m1.contexts serverName c
              connectionTasks := m1.connectionTasks.filter (fun n => n ≠ serverName) },
           .ok s)
      | .error _ =>
          ({ m1 with
              connectionTasks := m1.connectionTasks.filter (fun n => n ≠ serverName)
              sessions := removeA m1.sessions serverName
              contexts := removeA m1.contexts serverName },
           .error (.connection ("MCP connection failed for " ++ serverName)))

/-- `MCPClientManager.get_session` (lines 187-204): return a cached session;
otherwise ensure the lock, register a fresh connection task (in this
sequential model a previously stored task is always done, so the condition
of line 196 holds and a fresh task is created and awaited to completion),
and wrap any failure in `ConnectionError`. -/
def getSession (env : ConnectEnv) (m : MCPClientManager) (serverName : String) :
    MCPClientManager × Except A2AErr MCPSession :=
  match lookupA m.sessions serverName with
  | some s => (m, .ok s)
  | none =>
      let m1 := if serverName ∈ m.locks then m else { m with locks := m.locks ++ [serverName] }
      let m2 :=
        if serverName ∈ m1.connectionTasks then m1
        else { m1 with connectionTasks := m1.connectionTasks ++ [serverName] }
      match mcpConnect env m2 serverName with
      | (m3, .ok s) => (m3, .ok s)
      | (m3, .error _) =>
          (m3, .error (.connection ("Failed to get MCP session for " ++ serverName)))

/-- `MCPClientManager.call_tool` (lines 206-216): resolve or establish the
session and forward the call; ANY exception is wrapped into
`ActionFailedError`. -/
def callTool (env : ConnectEnv) (tenv : ToolEnv) (m : MCPClientManager)
    (serverName toolName : String) (params : List (String × String)) :
    MCPClientManager × Except A2AErr String :=
  match getSession env m serverName with
  | (m1, .error _) =>
      (m1, .error (.actionFailed ("MCP tool call " ++ serverName ++ "." ++ toolName ++ " failed")))
  | (m1, .ok s) =>
      match tenv s toolName params with
      | .ok content => (m1, .ok content)
      | .error _ =>
          (m1, .error (.actionFailed ("MCP tool call " ++ serverName ++ "." ++ toolName ++ " failed")))

/-! ## Concrete fixtures used by the closed theorems below -/

/-- Whether a stream event is a status event with `final == true`. -/
def isFinalStreamEvent : StreamEvent → Bool
  | .statusEvt _ f => f
  | _ => false

/-- Whether a stream event is a status event at all. -/
def isStatusStreamEvent : StreamEvent → Bool
  | .statusEvt _ _ => true
  | _ => false

/-- Whether a stream event is an error event. -/
def isErrorStreamEvent : StreamEvent → Bool
  | .errorEvt _ _ => true
  | _ => false

/-- A single part of a message, invalid per the four conditions named by
the specification: empty text, empty data map, or a file part with neither
truthy bytes nor a truthy URI. -/
def partInvalidB : A2APart → Bool
  | .text t => t = ""
  | .data d => d = []
  | .file b u _ => !pyTruthyOptStr b && !pyTruthyOptStr u

/-- The last element of a registration sequence that is a valid
asynchronous callable. -/
def lastAsyncHandler : List A2AHandler → Option A2AHandler
  | [] => none
  | h :: rest =>
      match lastAsyncHandler rest with
      | some h2 => some h2
      | none => if h.isCoroutineFunction then some h else none

/-- The scenario message: text `"ping"` routed to skill `"echo"`. -/
def pingMessage : A2AMessage :=
  { role := "user", parts := [A2APart.text "ping"], metadata := some [("skill_id", "echo")] }

/-- Send parameters for task `"t1"` carrying `pingMessage`. -/
def pingParams : A2ATaskSendParams :=
  { id := "t1", sessionId := none, message := pingMessage, metadata := none }

/-- An echo handler: returns `completed` with one artifact echoing the text
parts of the incoming message. -/
def echoHandler : A2AHandler where
  isCoroutineFunction := true
  run := fun t =>
    let texts : List String :=
      match t.history.getLast? with
      | some msg => msg.parts.filterMap (fun p =>
          match p with
          | .text s => some s
          | _ => none)
      | none => []
    { emits := []
      outcome := .ok
        { finalStatus := { state := "completed", message := none, timestamp := 0 }
          artifacts := [{ name := some "echo-result", description := none,
                          parts := texts.map A2APart.text, index := 0,
                          append := some false, lastChunk := none }] } }

/-- A router with only the echo handler registered. -/
def echoRouter : A2ATaskRouter := { handlers := [("echo", echoHandler)], defaultHandler := none }

/-- A handler that always raises an exception with text `"boom"`. -/
def boomHandler : A2AHandler where
  isCoroutineFunction := true
  run := fun _ => { emits := [], outcome := .error "boom" }

/-- A router whose `"echo"` skill is served by the raising handler. -/
def boomRouter : A2ATaskRouter := { handlers := [("echo", boomHandler)], defaultHandler := none }

/-- A router with nothing registered. -/
def emptyRouter : A2ATaskRouter := { handlers := [], defaultHandler := none }

/-- A stored task record sitting in state `"completed"` with a one-message
history. -/
def c3Task : A2ATask :=
  { id := "t1", sessionId := some "s",
    status := { state := "completed", message := none, timestamp := 0 },
    history := [pingMessage], artifacts := [], metadata := none }

/-- A manager holding `c3Task` under id `"t1"`. -/
def c3Manager : A2ATaskManager :=
  { tasks := [("t1", c3Task)], taskLocks := ["t1"], dlq := [], metrics := [] }

/-- An artifact already attached to a stored task. -/
def c6Artifact : A2AArtifact :=
  { name := none, description := none, parts := [A2APart.text "partial"],
    index := 0, append := some false, lastChunk := none }

/-- A stored task in state `"working"` holding `c6Artifact`. -/
def c6Task : A2ATask :=
  { id := "t1", sessionId := some "s", status := workingState 0,
    history := [pingMessage], artifacts := [c6Artifact], metadata := none }

/-- A manager holding the working task `c6Task`. -/
def c6Manager : A2ATaskManager :=
  { tasks := [("t1", c6Task)], taskLocks := [], dlq := [], metrics := [] }

/-- A stored task whose state is `"failed"` (not reusable per line 906). -/
def failedTask : A2ATask :=
  { id := "t1", sessionId := some "s",
    status := { state := "failed", message := none, timestamp := 0 },
    history := [pingMessage], artifacts := [], metadata := none }

/-- A manager holding the failed task under id `"t1"`. -/
def failedManager : A2ATaskManager :=
  { tasks := [("t1", failedTask)], taskLocks := [], dlq := [], metrics := [] }

/-- A stream consisting of one NON-final `"completed"` status event. -/
def c5Events : List StreamEvent :=
  [StreamEvent.statusEvt { state := "completed", message := none, timestamp := 3 } false]

/-- The task a `tasks/get` fallback would return. -/
def c5GetTask : A2ATask :=
  { id := "t1", sessionId := none, status := workingState 7,
    history := [], artifacts := [], metadata := none }

/-- Send parameters whose message has zero parts. -/
def emptyPartsParams : A2ATaskSendParams :=
  { id := "t0", sessionId := none,
    message := { role := "user", parts := [], metadata := none }, metadata := none }

/-- A valid asynchronous handler, first of two registrations. -/
def handlerA : A2AHandler where
  isCoroutineFunction := true
  run := fun _ => { emits := [], outcome := .error "A" }

/-- A valid asynchronous handler, second of two registrations. -/
def handlerB : A2AHandler where
  isCoroutineFunction := true
  run := fun _ => { emits := [], outcome := .error "B" }

/-- A callable that cannot suspend (not a coroutine function). -/
def handlerSync : A2AHandler where
  isCoroutineFunction := false
  run := fun _ => { emits := [], outcome := .error "sync" }

/-- A tool-connection manager with an empty configuration and no state. -/
def emptyMCPManager : MCPClientManager :=
  { config := [], sessions := [], contexts := [], locks := [], connectionTasks := [] }

/-- A connection environment in which every attempt fails. -/
def failingConnectEnv : ConnectEnv := fun _ => .error "transport unavailable"

/-- A tool environment in which every call fails. -/
def failingToolEnv : ToolEnv := fun _ _ _ => .error "transport unavailable"

/-! ## Helper lemmas -/

theorem lookupA_insertA_self {κ α : Type} [DecidableEq κ] (l : List (κ × α)) (k : κ) (v : α) :
    lookupA (insertA l k v) k = some v := by
  induction l with
  | nil => simp [insertA, lookupA]
  | cons p rest ih =>
      by_cases h : p.1 = k
      · simp [insertA, lookupA, h]
      · simp [insertA, lookupA, h, ih]

theorem lookupA_removeA_self {κ α : Type} [DecidableEq κ] (l : List (κ × α)) (k : κ) :
    lookupA (removeA l k) k = none := by
  induction l with
  | nil => simp [removeA, lookupA]
  | cons p rest ih =>
      by_cases h : p.1 = k
      · simpa [removeA, h] using ih
      · simpa [removeA, lookupA, h] using ih

theorem getTaskLock_tasks (m : A2ATaskManager) (taskId : String) :
    (getTaskLock m taskId).tasks = m.tasks := by
  unfold getTaskLock; split <;> rfl

theorem mem_getTaskLock_taskLocks (m : A2ATaskManager) (taskId : String) :
    taskId ∈ (getTaskLock m taskId).taskLocks := by
  unfold getTaskLock
  split
  · assumption
  · simp

theorem isFinalEvent_updateStatusEvent (i : String) (n : Nat) (s : String)
    (t : Option String) (f : Bool) : isFinalEvent (updateStatusEvent i n s t f) = f := rfl

theorem isFinalEvent_emitToItem (taskId : String) (now : Nat) (e : HandlerEmit) :
    isFinalEvent (emitToItem taskId now e) = emitFinal e := by
  cases e <;> rfl

theorem validatePart_code (p : A2APart) (e : A2AErr) (h : validatePart p = some e) :
    ∃ s, e = .a2a s (-32602) := by
  cases p <;> simp only [validatePart] at h <;> (repeat' split at h) <;>
    first
      | exact ⟨_, (Option.some.inj h).symm⟩
      | simp at h

theorem validatePart_of_invalid (p : A2APart) (h : partInvalidB p = true) :
    ∃ e, validatePart p = some e := by
  cases p with
  | text t =>
      simp only [partInvalidB, decide_eq_true_eq] at h
      exact ⟨.a2a "Text part must contain non-empty text" (-32602), by simp [validatePart, h]⟩
  | data d =>
      simp only [partInvalidB, decide_eq_true_eq] at h
      exact ⟨.a2a "Data part must contain non-empty dictionary" (-32602), by simp [validatePart, h]⟩
  | file b u mt =>
      simp only [partInvalidB, Bool.and_eq_true, Bool.not_eq_true'] at h
      exact ⟨.a2a "File part must have either bytes or URI" (-32602),
        by simp [validatePart, h.1, h.2]⟩

theorem firstValidationError_of_invalid (l : List A2APart)
    (h : ∃ p ∈ l, partInvalidB p = true) :
    ∃ s, firstValidationError l = some (.a2a s (-32602)) := by
  induction l with
  | nil => simp at h
  | cons p0 rest ih =>
      rcases h with ⟨p, hp, hinv⟩
      cases hv : validatePart p0 with
      | some e =>
          rcases validatePart_code p0 e hv with ⟨s, rfl⟩
          exact ⟨s, by simp [firstValidationError, hv]⟩
      | none =>
          have hmem : p ∈ rest := by
            rcases List.mem_cons.mp hp with h0 | h0
            · subst h0
              rcases validatePart_of_invalid p hinv with ⟨e, he⟩
              rw [hv] at he; cases he
            · exact h0
          rcases ih ⟨p, hmem, hinv⟩ with ⟨s, hs⟩
          exact ⟨s, by simp [firstValidationError, hv, hs]⟩

theorem processStream_no_status (events : List StreamEvent)
    (h : ∀ e ∈ events, isStatusStreamEvent e = false ∧ isErrorStreamEvent e = false) :
    ∀ lk, processStream events lk = ⟨lk, none⟩ := by
  induction events with
  | nil => intro lk; rfl
  | cons e rest ih =>
      intro lk
      have he := h e (List.mem_cons_self e rest)
      have hrest : ∀ x ∈ rest, isStatusStreamEvent x = false ∧ isErrorStreamEvent x = false :=
        fun x hx => h x (List.mem_cons_of_mem e hx)
      cases e with
      | errorEvt c msg => simp [isErrorStreamEvent] at he
      | statusEvt st f => simp [isStatusStreamEvent] at he
      | artifactEvt a => simpa [processStream] using ih hrest lk
      | malformed s => simpa [processStream] using ih hrest lk

theorem subscribeExec_countFinal (m : A2ATaskManager) (taskId : String)
    (handler : A2AHandler) (taskCopy : A2ATask) (now : Nat)
    (hemits : ∀ e ∈ (handler.run taskCopy).emits, emitFinal e = false) :
    ((subscribeExec m taskId handler taskCopy now).queue.countP isFinalEvent) = 1 := by
  have hitems : (((handler.run taskCopy).emits.map (emitToItem taskId now)).countP isFinalEvent) = 0 := by
    rw [List.countP_eq_zero]
    intro q hq
    rcases List.mem_map.mp hq with ⟨e, he, rfl⟩
    simp [isFinalEvent_emitToItem, hemits e he]
  unfold subscribeExec
  rcases houtcome : (handler.run taskCopy).outcome with e | r
  · simp [houtcome, List.countP_cons, List.countP_append,
          isFinalEvent_updateStatusEvent, hitems]
  · rcases htxt : finalMessageText r.finalStatus.message with e2 | txt
    · simp [houtcome, htxt, List.countP_cons, List.countP_append,
            isFinalEvent_updateStatusEvent, hitems]
    · simp [houtcome, htxt, List.countP_cons, List.countP_append,
            isFinalEvent_updateStatusEvent, hitems]

/-! ## Claim theorems -/

/-- C1 (code bug): the specification's echo scenario — send
`{id: "t1", text "ping", skill_id "echo"}` to a registered echo handler
that returns `completed` with an artifact echoing the input — should make
a subsequent `get("t1")` yield status `"completed"` with a `"ping"`
artifact.  Because the commit at protocols.py line 875 calls the async
`_update_task_state` without `await`, the store is never updated: the
subsequent `get` yields status `"working"` and an empty artifact list. -/
theorem c1_send_commit_lost :
    ((handleTaskGet (handleTaskSend emptyManager echoRouter pingParams "sess-1" 0).1 "t1" 1).2.map
        (fun t => (t.status.state, t.artifacts)))
      = .ok ("working", ([] : List A2AArtifact)) := by
  rfl

/-- C3 (code bug): `get(task_id, history_length)` with `history_length = 0`
should yield an empty history; because `history[-0:]` is the whole list
and the `elif history_length == 0` branch of lines 961-964 is unreachable
when the history is non-empty, the full one-message history is returned
instead. -/
theorem c3_history_zero_full :
    ((handleTaskGet c3Manager "t1" 0).2.map A2ATask.history) = .ok [pingMessage] := by
  rfl

/-- C4 (code bug): a handler exception is caught (the call returns instead
of raising) and exactly one dead-letter entry is appended, but the stored
task's status is NOT set to failed: the commit at line 885 invokes the
async `_update_task_state` without `await`, so the stored record keeps
status `"working"`. -/
theorem c4_handler_exception_behavior :
    ((handleTaskSend emptyManager boomRouter pingParams "s" 0).2.map
        (fun t => t.status.state) = .ok "working")
    ∧ ((lookupA (handleTaskSend emptyManager boomRouter pingParams "s" 0).1.tasks "t1").map
        (fun t => t.status.state) = some "working")
    ∧ (handleTaskSend emptyManager boomRouter pingParams "s" 0).1.dlq
        = [("t1", "tasks/send", "Handler exception: boom")] := by
  exact ⟨rfl, rfl, rfl⟩

/-- C6 (code bug): cancel on a non-terminal task should set the stored
status to canceled and clear the artifacts, and two consecutive cancels
should both return that canceled status.  Because line 979 invokes the
async `_update_task_state` without `await`, the store keeps status
`"working"` and its artifact: both cancel calls return the unchanged
working status (the second indeed never errors, but nothing was ever
canceled). -/
theorem c6_cancel_commit_lost :
    ((handleTaskCancel c6Manager "t1" 5).2.map (fun t => t.status.state) = .ok "working")
    ∧ (lookupA (handleTaskCancel c6Manager "t1" 5).1.tasks "t1" = some c6Task)
    ∧ ((handleTaskCancel (handleTaskCancel c6Manager "t1" 5).1 "t1" 6).2.map
        (fun t => (t.status.state, t.artifacts)) = .ok ("working", [c6Artifact])) := by
  exact ⟨rfl, rfl, rfl⟩

theorem lookupA_registerHandler (r : A2ATaskRouter) (s : String) (hh : A2AHandler) :
    lookupA (registerHandler r s hh).handlers s
      = if hh.isCoroutineFunction then some hh else lookupA r.handlers s := by
  unfold registerHandler
  cases hcf : hh.isCoroutineFunction
  · simp [hcf]
  · simp [hcf, lookupA_insertA_self]

theorem foldl_registerHandler_lookup (s : String) (regs : List A2AHandler) :
    ∀ (r : A2ATaskRouter),
      lookupA ((regs.foldl (fun acc hh => registerHandler acc s hh) r).handlers) s
        = match lastAsyncHandler regs with
          | some h => some h
          | none => lookupA r.handlers s := by
  induction regs with
  | nil => intro r; rfl
  | cons hh rest ih =>
      intro r
      simp only [List.foldl_cons]
      rw [ih]
      cases hrest : lastAsyncHandler rest with
      | some h2 => simp [lastAsyncHandler, hrest]
      | none =>
          cases hcf : hh.isCoroutineFunction <;>
            simp [lastAsyncHandler, hrest, hcf, lookupA_registerHandler]

theorem foldl_registerHandler_default (s : String) (regs : List A2AHandler) :
    ∀ (r : A2ATaskRouter),
      (regs.foldl (fun acc hh => registerHandler acc s hh) r).defaultHandler
        = r.defaultHandler := by
  induction regs with
  | nil => intro r; rfl
  | cons hh rest ih =>
      intro r
      simp only [List.foldl_cons]
      rw [ih]
      unfold registerHandler
      cases hcf : hh.isCoroutineFunction <;> simp [hcf]

theorem mcpConnect_unconfigured (env : ConnectEnv) (m : MCPClientManager) (serverName : String)
    (hconf : ∀ c ∈ m.config, c.name ≠ serverName)
    (hsess : lookupA m.sessions serverName = none) :
    mcpConnect env m serverName
      = ({ config := m.config
           sessions := removeA m.sessions serverName
           contexts := removeA m.contexts serverName
           locks := if serverName ∈ m.locks then m.locks else m.locks ++ [serverName]
           connectionTasks := m.connectionTasks.filter (fun n => n ≠ serverName) },
         .error (.connection ("MCP connection failed for " ++ serverName))) := by
  have hfind : m.config.find? (fun c => c.name = serverName) = none := by
    rw [List.find?_eq_none]
    intro c hc
    simp [hconf c hc]
  by_cases hl : serverName ∈ m.locks
  · simp [mcpConnect, if_pos hl, hsess, hfind]
  · simp [mcpConnect, if_neg hl, hsess, hfind]

theorem getSession_unconfigured (env : ConnectEnv) (m : MCPClientManager) (serverName : String)
    (hconf : ∀ c ∈ m.config, c.name ≠ serverName)
    (hsess : lookupA m.sessions serverName = none) :
    getSession env m serverName
      = ({ config := m.config
           sessions := removeA m.sessions serverName
           contexts := removeA m.contexts serverName
           locks := if serverName ∈ m.locks then m.locks else m.locks ++ [serverName]
           connectionTasks := m.connectionTasks.filter (fun n => n ≠ serverName) },
         .error (.connection ("Failed to get MCP session for " ++ serverName))) := by
  by_cases hl : serverName ∈ m.locks
  · by_cases hct : serverName ∈ m.connectionTasks
    · have hmc := mcpConnect_unconfigured env m serverName hconf hsess
      simp [getSession, hsess, hl, hct, hmc]
    · have hmc := mcpConnect_unconfigured env
        { m with connectionTasks := m.connectionTasks ++ [serverName] } serverName hconf hsess
      simp [getSession, hsess, hl, hct, hmc, List.filter_append]
  · by_cases hct : serverName ∈ m.connectionTasks
    · have hmc := mcpConnect_unconfigured env
        { m with locks := m.locks ++ [serverName] } serverName hconf hsess
      simp [getSession, hsess, hl, hct, hmc]
    · have hmc := mcpConnect_unconfigured env
        { m with
            locks := m.locks ++ [serverName]
            connectionTasks := m.connectionTasks ++ [serverName] } serverName hconf hsess
      simp [getSession, hsess, hl, hct, hmc, List.filter_append]

/-- C2 (counterexample to the claim as stated): a `sendSubscribe` whose
parameters validate and resolve to a handler, but whose stored task sits
in state `"failed"` (not in the reusable-state list of line 906), puts a
raw error object on the queue and returns — ZERO events with
`final == true` are put, not exactly one. -/
theorem c2_counterexample_invalid_state_no_final :
    validateTaskParams pingParams = none
    ∧ getHandler echoRouter (taskSkillId pingParams) = some echoHandler
    ∧ (handleTaskSendSubscribe failedManager echoRouter pingParams "s" 0).queue.countP
        isFinalEvent = 0 := by
  exact ⟨rfl, rfl, rfl⟩

/-- C2 (amended): for every `handle_task_send_subscribe` call whose
parameters validate and resolve to a handler, PROVIDED the stored task for
the id (if any) is in a reusable state and the handler does not itself
enqueue a `final=True` status event through its context, exactly one
status event with `final == true` is put on the queue — both when the
handler returns normally and when it raises. -/
theorem c2_exactly_one_final_amended (m : A2ATaskManager) (router : A2ATaskRouter)
    (params : A2ATaskSendParams) (genSession : String) (now : Nat) (handler : A2AHandler)
    (hval : validateTaskParams params = none)
    (hres : getHandler router (taskSkillId params) = some handler)
    (hreuse : ∀ t, lookupA m.tasks params.id = some t → reusableStateB t.status.state = true)
    (hemits : ∀ t, ∀ e ∈ (handler.run t).emits, emitFinal e = false) :
    (handleTaskSendSubscribe m router params genSession now).queue.countP isFinalEvent = 1 := by
  unfold handleTaskSendSubscribe
  rw [hval, hres]
  rcases hlk : lookupA (getTaskLock m params.id).tasks params.id with _ | task
  · simp only [hlk]
    exact subscribeExec_countFinal _ _ handler _ now (hemits _)
  · simp only [hlk]
    rw [getTaskLock_tasks] at hlk
    rw [if_pos (hreuse task hlk)]
    exact subscribeExec_countFinal _ _ handler _ now (hemits _)

/-- C2 (witness): on the empty manager with the echo handler and the ping
parameters, exactly one final event is enqueued. -/
theorem c2_exactly_one_final_witness :
    (handleTaskSendSubscribe emptyManager echoRouter pingParams "s" 0).queue.countP
      isFinalEvent = 1 :=
  c2_exactly_one_final_amended emptyManager echoRouter pingParams "s" 0 echoHandler rfl rfl
    (fun t ht => by simp [emptyManager, lookupA] at ht)
    (fun t e he => by simp [echoHandler] at he)

/-- C5 (counterexample to the claim as stated): a stream that ends after a
single NON-final `"completed"` status event.  The claim says the client
must then issue `tasks/get` and never synthesize a terminal outcome from
non-final information; the code (line 508-510) returns a task carrying the
last known — here terminal — state without calling `get`. -/
theorem c5_counterexample_nonfinal_status :
    (c5Events.all (fun e => !isFinalStreamEvent e) = true)
    ∧ (sendTaskStreamFinish pingParams c5Events (.ok c5GetTask)).calledGet = false
    ∧ ((sendTaskStreamFinish pingParams c5Events (.ok c5GetTask)).result.map
        (fun t => t.status.state) = .ok "completed") := by
  exact ⟨rfl, rfl, rfl⟩

/-- C5 (amended): for every streamed `send_task` whose event stream ends
without any STATUS event at all (and without an error event), the client
issues an explicit `tasks/get` call and, when that call succeeds, returns
its result; when the stream contained a non-final status event the client
instead returns a task carrying that last status without issuing a get. -/
theorem c5_fallback_get_amended (params : A2ATaskSendParams) (events : List StreamEvent)
    (getResult : Except A2AErr A2ATask)
    (h : ∀ e ∈ events, isStatusStreamEvent e = false ∧ isErrorStreamEvent e = false) :
    (sendTaskStreamFinish params events getResult).calledGet = true
    ∧ ∀ t, getResult = .ok t → (sendTaskStreamFinish params events getResult).result = .ok t := by
  unfold sendTaskStreamFinish
  rw [processStream_no_status events h none]
  constructor
  · rcases getResult with e | t <;> rfl
  · intro t ht
    rw [ht]

/-- C5 (witness): an empty stream with a successful fallback `get` returns
exactly the fetched task. -/
theorem c5_fallback_get_witness :
    (sendTaskStreamFinish pingParams [] (.ok c5GetTask)).calledGet = true
    ∧ (sendTaskStreamFinish pingParams [] (.ok c5GetTask)).result = .ok c5GetTask :=
  ⟨(c5_fallback_get_amended pingParams [] (.ok c5GetTask) (fun e he => by simp at he)).1,
   (c5_fallback_get_amended pingParams [] (.ok c5GetTask) (fun e he => by simp at he)).2
     c5GetTask rfl⟩

/-- C7 (confirmed): for every `params` whose message has zero parts, or
contains a text part with empty text, a data part with an empty map, or a
file part with neither inline bytes nor a URI, `handle_task_send` fails
with the invalid-params error (code -32602) and the manager — in
particular its task store — is left completely unchanged. -/
theorem c7_invalid_params_rejected (m : A2ATaskManager) (router : A2ATaskRouter)
    (params : A2ATaskSendParams) (genSession : String) (now : Nat)
    (h : params.message.parts = [] ∨ ∃ p ∈ params.message.parts, partInvalidB p = true) :
    ∃ msg, handleTaskSend m router params genSession now
      = (m, .error (.a2a msg (-32602))) := by
  have hval : ∃ s, validateTaskParams params = some (.a2a s (-32602)) := by
    rcases h with h0 | h0
    · exact ⟨"Task message must contain at least one part", by simp [validateTaskParams, h0]⟩
    · have hne : params.message.parts ≠ [] := by
        rcases h0 with ⟨p, hp, _⟩
        intro hnil
        rw [hnil] at hp
        simp at hp
      rcases firstValidationError_of_invalid params.message.parts h0 with ⟨s, hs⟩
      exact ⟨s, by simp [validateTaskParams, hne, hs]⟩
  rcases hval with ⟨s, hs⟩
  exact ⟨s, by simp [handleTaskSend, hs]⟩

/-- C7 (witness): a send whose message has zero parts is rejected with
-32602 and the manager is unchanged. -/
theorem c7_invalid_params_witness :
    ∃ msg, handleTaskSend emptyManager echoRouter emptyPartsParams "s" 0
      = (emptyManager, .error (.a2a msg (-32602))) :=
  c7_invalid_params_rejected emptyManager echoRouter emptyPartsParams "s" 0 (Or.inl rfl)

/-- C8 (counterexample to the claim as stated): for the skill id `""`,
registering a valid asynchronous handler stores it in the table, yet
`get_handler("")` does not return it — `if skill_id and ...` treats the
empty string as falsy and falls through to the (absent) default handler,
returning none instead of the last registered handler. -/
theorem c8_counterexample_empty_skill :
    (lookupA (registerHandler emptyRouter "" echoHandler).handlers "" = some echoHandler)
    ∧ getHandler (registerHandler emptyRouter "" echoHandler) (some "") = none := by
  exact ⟨rfl, rfl⟩

/-- C8 (amended): for every NON-EMPTY skill id `s`, after any sequence of
`register_handler(s, ·)` calls, `get_handler(s)` returns the last handler
of the sequence that is a valid asynchronous callable — in particular
registering two async handlers leaves only the second active — and a
callable that cannot suspend is rejected at registration time: the router
is left completely unchanged, so it can never fail later at call time. -/
theorem c8_last_writer_wins_amended (r : A2ATaskRouter) (s : String) (hs : s ≠ "")
    (regs : List A2AHandler) (h : A2AHandler)
    (hlast : lastAsyncHandler regs = some h) :
    (getHandler (regs.foldl (fun acc hh => registerHandler acc s hh) r) (some s) = some h)
    ∧ ∀ (r2 : A2ATaskRouter) (s2 : String) (h2 : A2AHandler),
        h2.isCoroutineFunction = false → registerHandler r2 s2 h2 = r2 := by
  constructor
  · have hl := foldl_registerHandler_lookup s regs r
    rw [hlast] at hl
    simp only [] at hl
    simp [getHandler, hs, hl]
  · intro r2 s2 h2 h2f
    unfold registerHandler
    simp [h2f]

/-- C8 (witness): registering async `handlerA`, the rejected non-async
`handlerSync`, then async `handlerB` under skill `"review"` leaves
`handlerB` active, and registering `handlerSync` alone changes nothing. -/
theorem c8_last_writer_wins_witness :
    (getHandler ([handlerA, handlerSync, handlerB].foldl
        (fun acc hh => registerHandler acc "review" hh) emptyRouter) (some "review")
      = some handlerB)
    ∧ registerHandler emptyRouter "review" handlerSync = emptyRouter :=
  ⟨(c8_last_writer_wins_amended emptyRouter "review" (by decide)
      [handlerA, handlerSync, handlerB] handlerB rfl).1,
   (c8_last_writer_wins_amended emptyRouter "review" (by decide)
      [handlerA, handlerSync, handlerB] handlerB rfl).2 emptyRouter "review" handlerSync rfl⟩

/-- C9 (confirmed): for every server name with no matching entry in the
manager's configuration (and no already-cached session for it),
`call_tool` returns the typed action-failed error — never the raw
underlying exception — and afterwards no session, no connection context
and no connection-task entry is registered for that server. -/
theorem c9_unconfigured_call_tool (env : ConnectEnv) (tenv : ToolEnv) (m : MCPClientManager)
    (serverName toolName : String) (params : List (String × String))
    (hconf : ∀ c ∈ m.config, c.name ≠ serverName)
    (hsess : lookupA m.sessions serverName = none) :
    ((callTool env tenv m serverName toolName params).2
        = .error (.actionFailed ("MCP tool call " ++ serverName ++ "." ++ toolName ++ " failed")))
    ∧ lookupA (callTool env tenv m serverName toolName params).1.sessions serverName = none
    ∧ lookupA (callTool env tenv m serverName toolName params).1.contexts serverName = none
    ∧ serverName ∉ (callTool env tenv m serverName toolName params).1.connectionTasks := by
  have hg := getSession_unconfigured env m serverName hconf hsess
  refine ⟨?_, ?_, ?_, ?_⟩
  · simp [callTool, hg]
  · simp [callTool, hg, lookupA_removeA_self]
  · simp [callTool, hg, lookupA_removeA_self]
  · simp [callTool, hg, List.mem_filter]

/-- C9 (witness): calling a tool on the unconfigured server `"github"` of
an empty manager fails with the action-failed error and registers
nothing. -/
theorem c9_unconfigured_call_tool_witness :
    ((callTool failingConnectEnv failingToolEnv emptyMCPManager "github" "search" []).2
        = .error (.actionFailed ("MCP tool call " ++ "github" ++ "." ++ "search" ++ " failed")))
    ∧ lookupA (callTool failingConnectEnv failingToolEnv emptyMCPManager "github" "search"
        []).1.sessions "github" = none
    ∧ lookupA (callTool failingConnectEnv failingToolEnv emptyMCPManager "github" "search"
        []).1.contexts "github" = none
    ∧ "github" ∉ (callTool failingConnectEnv failingToolEnv emptyMCPManager "github" "search"
        []).1.connectionTasks :=
  c9_unconfigured_call_tool failingConnectEnv failingToolEnv emptyMCPManager "github" "search" []
    (fun c hc => by simp [emptyMCPManager] at hc) rfl

/-- C10 (confirmed): for every task id absent from the task store, both
`handle_task_get` and `handle_task_cancel` fail with the not-found error
(-32001) but first insert a per-task lock entry for that id into the
manager's lock table, and that entry is still present after the failing
call. -/
theorem c10_lock_table_mutation (m : A2ATaskManager) (taskId : String) (n : Int) (now : Nat)
    (h : lookupA m.tasks taskId = none) :
    ((handleTaskGet m taskId n).2 = .error (.a2a ("Task " ++ taskId ++ " not found") (-32001))
      ∧ taskId ∈ (handleTaskGet m taskId n).1.taskLocks)
    ∧ ((handleTaskCancel m taskId now).2
        = .error (.a2a ("Task " ++ taskId ++ " not found") (-32001))
      ∧ taskId ∈ (handleTaskCancel m taskId now).1.taskLocks) := by
  have hg : lookupA (getTaskLock m taskId).tasks taskId = none := by
    rw [getTaskLock_tasks]
    exact h
  refine ⟨⟨?_, ?_⟩, ⟨?_, ?_⟩⟩
  · simp [handleTaskGet, hg]
  · simp only [handleTaskGet, hg]
    exact mem_getTaskLock_taskLocks m taskId
  · simp [handleTaskCancel, hg]
  · simp only [handleTaskCancel, hg]
    exact mem_getTaskLock_taskLocks m taskId

/-- C10 (witness): on the empty manager, getting and canceling the unknown
id `"t9"` both fail with -32001 yet leave a `"t9"` lock entry behind. -/
theorem c10_lock_table_mutation_witness :
    ((handleTaskGet emptyManager "t9" 0).2
        = .error (.a2a ("Task " ++ "t9" ++ " not found") (-32001))
      ∧ "t9" ∈ (handleTaskGet emptyManager "t9" 0).1.taskLocks)
    ∧ ((handleTaskCancel emptyManager "t9" 0).2
        = .error (.a2a ("Task " ++ "t9" ++ " not found") (-32001))
      ∧ "t9" ∈ (handleTaskCancel emptyManager "t9" 0).1.taskLocks) :=
  c10_lock_table_mutation emptyManager "t9" 0 0 rfl

end APIA
